import Mathlib

/-!
Shallow embedding of the access-control and voting core of the alx-polly
repository (Next.js server actions over a Supabase store).

Sources embedded:
* `app/lib/actions/poll-actions.ts`: `createPoll`, `getUserPolls`,
  `getPollById`, `submitVote`, `deletePoll`, `updatePoll`.
* `app/lib/actions/auth-actions.ts`: the zod `passwordSchema` chain and
  `register`.
* `app/(dashboard)/admin/page.tsx`: the admin-gate routing decision.

The Supabase store is modelled as an explicit state value (`Store`) holding
the `polls` and `votes` collections; each server action becomes a pure
function from the store (and the principal resolved by
`supabase.auth.getUser()`, modelled as `Option AuthUser`) to the new store
and the `{error}` payload the action returns. `revalidatePath` and client
construction are cache/plumbing effects with no bearing on the data model
and are not modelled. The poll row carries the `settings` field of the
repository's `PollSettings` type (`app/lib/types/index.ts`); the server
actions never read it, exactly as in the source.
-/

namespace AlxPolly

/-- The repository's `PollSettings` type (`app/lib/types/index.ts`). -/
structure PollSettings where
  allowMultipleVotes : Bool
  requireAuthentication : Bool
deriving DecidableEq, Repr

/-- A row of the `polls` table: `{id, user_id, question, options, created_at, settings}`
per the store contract. `created_at` is an abstract timestamp. -/
structure PollRow where
  id : String
  user_id : String
  question : String
  options : List String
  created_at : Nat
  settings : PollSettings
deriving DecidableEq, Repr

/-- A row of the `votes` table: `{poll_id, user_id (nullable), option_index}`.
The index is an `Int` because the source passes an unchecked JS number. -/
structure VoteRow where
  poll_id : String
  user_id : Option String
  option_index : Int
deriving DecidableEq, Repr

/-- The backing store: the `polls` and `votes` collections. -/
structure Store where
  polls : List PollRow
  votes : List VoteRow
deriving DecidableEq, Repr

/-- The principal resolved by `supabase.auth.getUser()`: an id and the
optional `user_metadata.role` claim. An anonymous request is `none`. -/
structure AuthUser where
  id : String
  role : Option String
deriving DecidableEq, Repr

/-- Error message of the shared input check of `createPoll`/`updatePoll`. -/
def pollValidationMsg : String := "Please provide a question and at least two options."

/-- Error message of `createPoll` for an anonymous caller. -/
def createLoginMsg : String := "You must be logged in to create a poll."

/-- Error message of `updatePoll` for an anonymous caller. -/
def updateLoginMsg : String := "You must be logged in to update a poll."

/-- Error message of `getUserPolls` for an anonymous caller. -/
def notAuthenticatedMsg : String := "Not authenticated"

/-- Error returned by the store for `.single()` on a non-singleton result
(the exact text comes from the store; only its presence matters). -/
def singleRowErrorMsg : String := "JSON object requested, multiple (or no) rows returned"

/-- The `formData.getAll("options").filter(Boolean)` step: JS `Boolean`
drops exactly the empty string (no trimming). -/
def filterTruthy (opts : List String) : List String :=
  opts.filter (fun o => !(o == ""))

/-- The input check shared by `createPoll` and `updatePoll`:
`!question || options.length < 2` (JS `!s` is true only for `""`). -/
def pollInputInvalid (question : String) (options : List String) : Bool :=
  (question == "") || decide (options.length < 2)

/-- `createPoll(formData)` of `poll-actions.ts`: validate, require a user,
insert `{user_id, question, options}`. `newId`/`now` stand for the values
the store generates; the settings column takes the store default. -/
def createPoll (s : Store) (userOpt : Option AuthUser) (question : String)
    (rawOptions : List String) (newId : String) (now : Nat) : Store × Option String :=
  let options := filterTruthy rawOptions
  if pollInputInvalid question options then
    (s, some pollValidationMsg)
  else
    match userOpt with
    | none => (s, some createLoginMsg)
    | some u =>
        (Store.mk
          (s.polls ++ [PollRow.mk newId u.id question options now (PollSettings.mk false false)])
          s.votes, none)

/-- `getUserPolls()` of `poll-actions.ts`: anonymous callers get
`{polls: [], error: "Not authenticated"}`; otherwise the rows with
`user_id = user.id` ordered by `created_at` descending. -/
def byCreatedAtDesc (a b : PollRow) : Prop :=
  b.created_at ≤ a.created_at

instance : DecidableRel byCreatedAtDesc :=
  fun a b => Nat.decLe b.created_at a.created_at

instance : IsTotal PollRow byCreatedAtDesc :=
  ⟨fun a b => Nat.le_total b.created_at a.created_at⟩

instance : IsTrans PollRow byCreatedAtDesc :=
  ⟨fun _ _ _ h1 h2 => Nat.le_trans h2 h1⟩

def getUserPolls (s : Store) (userOpt : Option AuthUser) : List PollRow × Option String :=
  match userOpt with
  | none => ([], some notAuthenticatedMsg)
  | some u =>
      (List.insertionSort byCreatedAtDesc (s.polls.filter fun p => p.user_id == u.id), none)

/-- `getPollById(id)` of `poll-actions.ts`: a bare `select().eq("id", id).single()`
with no principal and no authorization check; `.single()` errors unless
exactly one row matches. -/
def getPollById (s : Store) (id : String) : Option PollRow × Option String :=
  match s.polls.filter (fun p => p.id == id) with
  | [p] => (some p, none)
  | _ => (none, some singleRowErrorMsg)

/-- `submitVote(pollId, optionIndex)` of `poll-actions.ts`: the login guard
is commented out and no poll lookup, index validation or duplicate check is
performed; the row `{poll_id, user_id: user?.id ?? null, option_index}` is
inserted unconditionally. -/
def submitVote (s : Store) (userOpt : Option AuthUser) (pollId : String)
    (optionIndex : Int) : Store × Option String :=
  (Store.mk s.polls
    (s.votes ++ [VoteRow.mk pollId (userOpt.map AuthUser.id) optionIndex]), none)

/-- `deletePoll(id)` of `poll-actions.ts`: `delete().eq("id", id)` with no
user lookup and no ownership filter; votes are untouched. -/
def deletePoll (s : Store) (id : String) : Store × Option String :=
  (Store.mk (s.polls.filter fun p => !(p.id == id)) s.votes, none)

/-- `updatePoll(pollId, formData)` of `poll-actions.ts`: validate, require a
user, then `update({question, options}).eq("id", pollId).eq("user_id", user.id)`;
an UPDATE matching zero rows is not an error. -/
def updatePoll (s : Store) (userOpt : Option AuthUser) (pollId : String)
    (question : String) (rawOptions : List String) : Store × Option String :=
  let options := filterTruthy rawOptions
  if pollInputInvalid question options then
    (s, some pollValidationMsg)
  else
    match userOpt with
    | none => (s, some updateLoginMsg)
    | some u =>
        (Store.mk
          (s.polls.map fun p =>
            if p.id == pollId && p.user_id == u.id then
              PollRow.mk p.id p.user_id question options p.created_at p.settings
            else p)
          s.votes, none)

/-- Check of `passwordSchema.min(8, ...)` (string length). -/
def lengthOk (pw : String) : Bool :=
  decide (8 ≤ pw.length)

/-- Check of `passwordSchema.regex(/[a-z]/, ...)`. -/
def hasLower (pw : String) : Bool :=
  pw.data.any fun c => decide ('a' ≤ c ∧ c ≤ 'z')

/-- Check of `passwordSchema.regex(/[A-Z]/, ...)`. -/
def hasUpper (pw : String) : Bool :=
  pw.data.any fun c => decide ('A' ≤ c ∧ c ≤ 'Z')

/-- Check of `passwordSchema.regex(/[0-9]/, ...)`. -/
def hasDigit (pw : String) : Bool :=
  pw.data.any fun c => decide ('0' ≤ c ∧ c ≤ '9')

/-- Character class `[a-zA-Z0-9]`. -/
def isAlnumAscii (c : Char) : Bool :=
  decide (('a' ≤ c ∧ c ≤ 'z') ∨ ('A' ≤ c ∧ c ≤ 'Z') ∨ ('0' ≤ c ∧ c ≤ '9'))

/-- Check of `passwordSchema.regex(/[^a-zA-Z0-9]/, ...)`. -/
def hasSpecial (pw : String) : Bool :=
  pw.data.any fun c => !(isAlnumAscii c)

def lenMsg : String := "Password must be at least 8 characters long."

def lowerMsg : String := "Password must contain at least one lowercase letter."

def upperMsg : String := "Password must contain at least one uppercase letter."

def digitMsg : String := "Password must contain at least one number."

def specialMsg : String := "Password must contain at least one special character."

/-- The `passwordSchema` chain of `auth-actions.ts`, in declaration order. -/
def passwordChecks : List ((String → Bool) × String) :=
  [(lengthOk, lenMsg), (hasLower, lowerMsg), (hasUpper, upperMsg),
   (hasDigit, digitMsg), (hasSpecial, specialMsg)]

/-- The issues zod's `safeParse` collects: messages of the failing checks,
in schema order. -/
def passwordIssues (pw : String) : List String :=
  (passwordChecks.filter fun c => !(c.1 pw)).map Prod.snd

/-- `passwordSchema.safeParse(pw)` as seen by `register`, which reads
`error.errors[0].message` on failure: the first failing message, or `none`
on success. -/
def passwordSafeParse (pw : String) : Option String :=
  (passwordIssues pw).head?

/-- `register(data)` of `auth-actions.ts`. `signUp` stands for the external
identity provider's `supabase.auth.signUp`, returning its error if any. The
second component records whether `signUp` was invoked. `uname` rides along
in the sign-up metadata and does not influence control flow. -/
def register (signUp : String → String → Option String)
    (uname email password : String) : Option String × Bool :=
  let _ := uname
  match passwordSafeParse password with
  | some msg => (some msg, false)
  | none => (signUp email password, true)

/-- The decision of the admin-gate server component. -/
inductive AdminDecision where
  | authorized
  | redirectTo (target : String)
deriving DecidableEq, Repr

/-- `AdminPage` of `app/(dashboard)/admin/page.tsx`: no user redirects to
`/login`; `user_metadata.role !== "admin"` redirects to `/polls`; otherwise
the admin view is rendered (`authorized`). -/
def adminPage (userOpt : Option AuthUser) : AdminDecision :=
  match userOpt with
  | none => AdminDecision.redirectTo "/login"
  | some u =>
      if !(u.role == some "admin") then AdminDecision.redirectTo "/polls"
      else AdminDecision.authorized

/-! Concrete fixtures used by the closed theorems. -/

def u1 : AuthUser := AuthUser.mk "u1" none

def u2 : AuthUser := AuthUser.mk "u2" none

def defaultSettings : PollSettings := PollSettings.mk false false

/-- A poll owned by `u1`; without a visibility column it is non-public by
the spec's default, and it disallows multiple votes. -/
def p1 : PollRow := PollRow.mk "p1" "u1" "Best color?" ["Red", "Blue"] 1 defaultSettings

def store1 : Store := Store.mk [p1] []

/-- A poll whose settings require authentication. -/
def pAuth : PollRow := PollRow.mk "pa" "u1" "Members only?" ["Yes", "No"] 2 (PollSettings.mk false true)

def storeAuth : Store := Store.mk [pAuth] []

/-- A 501-character option text. -/
def longOption : String := String.mk (List.replicate 501 'a')

/-- C1: `getPollById` takes no principal and performs no `canRead` check, so
every caller, the anonymous principal included, receives the non-public poll
`p1` owned by `u1` with no error; only the NotFound half of the claim holds
(an absent id yields an error and no poll). This contradicts the README's
documented fix restricting access to public or owned polls. -/
theorem getPollById_no_authorization :
    getPollById store1 "p1" = (some p1, none)
    ∧ (getPollById store1 "missing").1 = none
    ∧ (getPollById store1 "missing").2 ≠ none := by
  refine ⟨rfl, rfl, ?_⟩
  decide

/-- C2: the non-owner `u2` can delete `u1`'s poll: `deletePoll` has no
ownership check, removes `p1` from the store and reports success, while
`updatePoll` by `u2` (valid input) leaves the store unchanged yet also
reports success instead of a Forbidden error. This contradicts the README's
documented owner-only delete fix. -/
theorem nonOwner_delete_update_no_forbidden :
    deletePoll store1 "p1" = (Store.mk [] [], none)
    ∧ updatePoll store1 (some u2) "p1" "New question?" ["a", "b"] = (store1, none) := by
  exact ⟨rfl, rfl⟩

/-- C3: the authenticated voter `u2` submits the same vote twice on poll
`p1` (whose `allowMultipleVotes` is false): both calls succeed and two rows
for the pair `("p1", "u2")` end up stored, contradicting the claim's
DuplicateVote failure and the README's documented duplicate-vote
prevention. -/
theorem duplicate_votes_both_recorded :
    p1.settings.allowMultipleVotes = false
    ∧ (submitVote store1 (some u2) "p1" 0).2 = none
    ∧ (submitVote ((submitVote store1 (some u2) "p1" 0).1) (some u2) "p1" 0).2 = none
    ∧ ((submitVote ((submitVote store1 (some u2) "p1" 0).1) (some u2) "p1" 0).1).votes
        = [VoteRow.mk "p1" (some "u2") 0, VoteRow.mk "p1" (some "u2") 0] := by
  exact ⟨rfl, rfl, rfl, rfl⟩

/-- C4: poll `p1` has 2 options, yet `submitVote` with the out-of-range
index 5 succeeds and inserts the row, contradicting the claim's
InvalidOption failure and the README's documented option-index
validation. -/
theorem out_of_range_vote_recorded :
    p1.options.length = 2
    ∧ (submitVote store1 (some u2) "p1" 5).2 = none
    ∧ ((submitVote store1 (some u2) "p1" 5).1).votes = [VoteRow.mk "p1" (some "u2") 5] := by
  exact ⟨rfl, rfl, rfl⟩

/-- C5 counterexample: poll `pAuth` has `settings.requireAuthentication = true`,
yet an anonymous `submitVote` on it succeeds and a vote with a null voterId
is recorded, instead of failing Forbidden and recording nothing. -/
theorem anonymous_vote_on_auth_poll_recorded :
    pAuth.settings.requireAuthentication = true
    ∧ submitVote storeAuth none "pa" 0
        = (Store.mk [pAuth] [VoteRow.mk "pa" none 0], none) := by
  exact ⟨rfl, rfl⟩

/-- C5 amended: `submitVote` never consults the poll's settings; for every
store, poll id and option index, an anonymous submission succeeds (it is
never Forbidden) and appends exactly one vote with a null voterId. -/
theorem submitVote_anonymous_null_voter (s : Store) (pollId : String) (i : Int) :
    submitVote s none pollId i
      = (Store.mk s.polls (s.votes ++ [VoteRow.mk pollId none i]), none) := rfl

/-- C5 amended, witness at a concrete input. -/
theorem submitVote_anonymous_null_voter_witness :
    submitVote store1 none "p1" 0 = (Store.mk [p1] [VoteRow.mk "p1" none 0], none) :=
  submitVote_anonymous_null_voter store1 "p1" 0

/-- C6 counterexample: the question `" "` is blank (whitespace-only), the
first raw option is whitespace-only — so after trimming only one non-blank
option remains — and the second option is 501 characters long; the claim
demands a validation failure (EmptyQuestion, InsufficientOptions and
OptionTooLong all apply), but `createPoll` accepts the input and stores the
poll verbatim. -/
theorem oversized_untrimmed_input_accepted :
    longOption.length = 501
    ∧ (createPoll (Store.mk [] []) (some u1) " " [" ", longOption] "p9" 9).2 = none
    ∧ ((createPoll (Store.mk [] []) (some u1) " " [" ", longOption] "p9" 9).1).polls
        = [PollRow.mk "p9" "u1" " " [" ", longOption] 9 defaultSettings] := by
  refine ⟨?_, rfl, rfl⟩
  have h : longOption.length = (List.replicate 501 'a').length := rfl
  rw [h, List.length_replicate]

/-- C6 amended: for both `createPoll` and `updatePoll`, input validation
fails (with the single combined message) exactly when the question is the
empty string or fewer than two non-empty options are supplied; whitespace
is not trimmed, whitespace-only text counts as present, and option length
is unbounded. -/
theorem pollInput_validation_characterization (s : Store) (userOpt : Option AuthUser)
    (q : String) (rawOptions : List String) (pid newId : String) (now : Nat) :
    ((createPoll s userOpt q rawOptions newId now).2 = some pollValidationMsg
        ↔ (q = "" ∨ (filterTruthy rawOptions).length < 2))
    ∧ ((updatePoll s userOpt pid q rawOptions).2 = some pollValidationMsg
        ↔ (q = "" ∨ (filterTruthy rawOptions).length < 2)) := by
  constructor
  · unfold createPoll
    by_cases h : pollInputInvalid q (filterTruthy rawOptions)
    · have hc : q = "" ∨ (filterTruthy rawOptions).length < 2 := by
        simpa [pollInputInvalid] using h
      rw [if_pos h]
      exact iff_of_true rfl hc
    · have hnot : ¬(q = "" ∨ (filterTruthy rawOptions).length < 2) := by
        intro hc
        apply h
        simpa [pollInputInvalid] using hc
      rw [if_neg h]
      cases userOpt with
      | none =>
          exact iff_of_false (fun hc => absurd (Option.some.inj hc) (by decide)) hnot
      | some u =>
          exact iff_of_false (fun hc => Option.noConfusion hc) hnot
  · unfold updatePoll
    by_cases h : pollInputInvalid q (filterTruthy rawOptions)
    · have hc : q = "" ∨ (filterTruthy rawOptions).length < 2 := by
        simpa [pollInputInvalid] using h
      rw [if_pos h]
      exact iff_of_true rfl hc
    · have hnot : ¬(q = "" ∨ (filterTruthy rawOptions).length < 2) := by
        intro hc
        apply h
        simpa [pollInputInvalid] using hc
      rw [if_neg h]
      cases userOpt with
      | none =>
          exact iff_of_false (fun hc => absurd (Option.some.inj hc) (by decide)) hnot
      | some u =>
          exact iff_of_false (fun hc => Option.noConfusion hc) hnot

/-- C8 counterexample: an anonymous call of `getUserPolls` returns the empty
list together with the error message "Not authenticated": the claim's
"is not an error" half is false on the code. -/
theorem getUserPolls_anonymous_error :
    getUserPolls store1 none = ([], some "Not authenticated") := rfl

/-- C8 amended: an anonymous principal gets an empty sequence plus the error
message "Not authenticated"; an authenticated principal gets, with no error,
exactly its own polls — a permutation of the ownership filter, every element
owned by the caller, sorted by `created_at` descending. -/
theorem getUserPolls_owned_sorted (s : Store) (u : AuthUser) :
    getUserPolls s none = ([], some notAuthenticatedMsg)
    ∧ (getUserPolls s (some u)).2 = none
    ∧ (getUserPolls s (some u)).1.Perm (s.polls.filter fun p => p.user_id == u.id)
    ∧ List.Sorted byCreatedAtDesc (getUserPolls s (some u)).1
    ∧ ∀ p ∈ (getUserPolls s (some u)).1, p.user_id = u.id := by
  refine ⟨rfl, rfl, ?_, ?_, ?_⟩
  · exact List.perm_insertionSort byCreatedAtDesc _
  · exact List.sorted_insertionSort byCreatedAtDesc _
  · intro p hp
    have hmem : p ∈ s.polls.filter fun q => q.user_id == u.id :=
      (List.perm_insertionSort byCreatedAtDesc _).mem_iff.mp hp
    have hbeq : (p.user_id == u.id) = true := (List.mem_filter.mp hmem).2
    exact eq_of_beq hbeq

/-- C8 amended, witness at a concrete input. -/
theorem getUserPolls_owned_sorted_witness :
    (getUserPolls store1 (some u1)).2 = none :=
  (getUserPolls_owned_sorted store1 u1).2.1

/-- C9: the admin gate is the deterministic three-way decision: an anonymous
principal is redirected to "/login"; an authenticated principal whose role
claim is not exactly "admin" is redirected to "/polls"; a principal with
role claim "admin" is authorized. The embedding is a pure function, so the
decision is its only effect. -/
theorem adminPage_three_way (userOpt : Option AuthUser) :
    adminPage userOpt =
      match userOpt with
      | none => AdminDecision.redirectTo "/login"
      | some u =>
          if u.role = some "admin" then AdminDecision.authorized
          else AdminDecision.redirectTo "/polls" := by
  cases userOpt with
  | none => rfl
  | some u =>
      by_cases h : u.role = some "admin"
      · simp [adminPage, h]
      · simp [adminPage, h]

/-- C9 witness at concrete inputs. -/
theorem adminPage_three_way_witness :
    adminPage none = AdminDecision.redirectTo "/login"
    ∧ adminPage (some (AuthUser.mk "a1" (some "admin"))) = AdminDecision.authorized
    ∧ adminPage (some (AuthUser.mk "u3" (some "user"))) = AdminDecision.redirectTo "/polls"
    ∧ adminPage (some u2) = AdminDecision.redirectTo "/polls" :=
  ⟨adminPage_three_way none,
   adminPage_three_way (some (AuthUser.mk "a1" (some "admin"))),
   adminPage_three_way (some (AuthUser.mk "u3" (some "user"))),
   adminPage_three_way (some u2)⟩

/-- C7: password validation succeeds iff the candidate has length at least
8 and contains a lowercase letter, an uppercase letter, a digit and a
non-alphanumeric character; on failure the first failing rule's message is
returned in the fixed order length, lowercase, uppercase, digit, special;
the three spec examples behave as claimed. -/
theorem passwordValidation_first_failure :
    (∀ pw, passwordSafeParse pw =
      if !(lengthOk pw) then some lenMsg
      else if !(hasLower pw) then some lowerMsg
      else if !(hasUpper pw) then some upperMsg
      else if !(hasDigit pw) then some digitMsg
      else if !(hasSpecial pw) then some specialMsg
      else none)
    ∧ (∀ pw, passwordSafeParse pw = none
        ↔ (lengthOk pw ∧ hasLower pw ∧ hasUpper pw ∧ hasDigit pw ∧ hasSpecial pw))
    ∧ passwordSafeParse "short1!" = some lenMsg
    ∧ passwordSafeParse "alllowercase1!" = some upperMsg
    ∧ passwordSafeParse "Strong1Pass!" = none := by
  have hchain : ∀ pw, passwordSafeParse pw =
      if !(lengthOk pw) then some lenMsg
      else if !(hasLower pw) then some lowerMsg
      else if !(hasUpper pw) then some upperMsg
      else if !(hasDigit pw) then some digitMsg
      else if !(hasSpecial pw) then some specialMsg
      else none := by
    intro pw
    simp only [passwordSafeParse, passwordIssues, passwordChecks, List.filter, List.map]
    cases h1 : lengthOk pw <;> cases h2 : hasLower pw <;> cases h3 : hasUpper pw
      <;> cases h4 : hasDigit pw <;> cases h5 : hasSpecial pw <;> simp
  refine ⟨hchain, ?_, ?_, ?_, ?_⟩
  · intro pw
    rw [hchain pw]
    cases h1 : lengthOk pw <;> cases h2 : hasLower pw <;> cases h3 : hasUpper pw
      <;> cases h4 : hasDigit pw <;> cases h5 : hasSpecial pw <;> simp
  · decide
  · decide
  · decide

/-- C10: whenever the candidate password fails the complexity schema,
`register` returns exactly the first failing rule's message and the identity
provider's sign-up operation is never invoked (the boolean component records
whether `signUp` ran). -/
theorem register_validation_precedes_signUp
    (signUp : String → String → Option String) (uname email pw msg : String)
    (h : passwordSafeParse pw = some msg) :
    register signUp uname email pw = (some msg, false) := by
  simp [register, h]

/-- C10 witness: at the concrete password "short1!" the first failing
message is the length message and `signUp` is not invoked. -/
theorem register_validation_witness :
    passwordSafeParse "short1!" = some lenMsg
    ∧ register (fun _ _ => none) "n" "e" "short1!" = (some lenMsg, false) :=
  ⟨by decide,
   register_validation_precedes_signUp (fun _ _ => none) "n" "e" "short1!" lenMsg (by decide)⟩

end AlxPolly
